import Mathlib

/-!
Verification development for the GateKeeper enroll/verify core
(`gatekeeper.cpp`): password-handle creation and verification, the
enroll and verify flows, the password-file cross-check and auth-token
minting, embedded shallowly over `Nat` and `List Nat` byte buffers.
Buffers are lists of bytes; machine integers are naturals reduced
modulo the word size exactly where the code's fixed-width fields do so.
The external collaborators (random source, key service, keyed signature
primitive, password-file store) are parameters of the embedding, as the
source treats them as trusted services.
-/

namespace Gatekeeper

/-- `static const uint8_t HANDLE_VERSION = 0;` -/
def HANDLE_VERSION : Nat := 0

/-- The packed `password_handle_t` struct: version byte, 64-bit
`user_id`, 64-bit `authenticator_id` (the fields included in the
signature), then 64-bit `salt` and 32-byte `signature`. -/
structure password_handle_t where
  version : Nat
  user_id : Nat
  authenticator_id : Nat
  salt : Nat
  signature : List Nat
deriving DecidableEq, Repr

/-- Little-endian byte serialization of a natural into `w` bytes,
modelling how a `uint64_t` (or `uint8_t`) field lies in the packed
struct's memory. Values are truncated modulo `2^(8*w)` exactly as a
fixed-width store would. -/
def natToLEBytes : Nat → Nat → List Nat
  | _, 0 => []
  | n, w + 1 => n % 256 :: natToLEBytes (n / 256) w

/-- Little-endian byte deserialization, the view `reinterpret_cast`
gives of buffer memory as a fixed-width integer field. -/
def leBytesToNat : List Nat → Nat
  | [] => 0
  | b :: bs => b % 256 + 256 * leBytesToNat bs

/-- The byte image of a `password_handle_t` in memory (packed layout:
version at offset 0, user_id at 1, authenticator_id at 9, salt at 17,
signature at 25; `sizeof(password_handle_t) = 57`). `memcmp` over the
struct compares exactly these bytes, and the buffer produced by
`CreatePasswordHandle` holds exactly these bytes. -/
def serializeHandle (h : password_handle_t) : List Nat :=
  natToLEBytes h.version 1 ++ natToLEBytes h.user_id 8 ++
    natToLEBytes h.authenticator_id 8 ++ natToLEBytes h.salt 8 ++ h.signature

/-- `sizeof(password_handle_t)`: 1 + 8 + 8 + 8 + 32. -/
def handleSize : Nat := 57

/-- The struct view `reinterpret_cast<password_handle_t *>(buffer)`
gives of a raw buffer: each field read from its offset in the packed
layout. Faithful for buffers of at least `handleSize` bytes (shorter
buffers are undefined behaviour in the source). -/
def readHandle (bytes : List Nat) : password_handle_t where
  version := bytes.getD 0 0
  user_id := leBytesToNat ((bytes.drop 1).take 8)
  authenticator_id := leBytesToNat ((bytes.drop 9).take 8)
  salt := leBytesToNat ((bytes.drop 17).take 8)
  signature := (bytes.drop 25).take 32

/-- The `to_sign` buffer of `CreatePasswordHandle`: `memcpy` of the
`metadata_length = 17` bytes starting at `&password_handle->version`
(version byte, then user_id and authenticator_id little-endian),
followed by the password bytes. -/
def signedRegion (version uid aid : Nat) (password : List Nat) : List Nat :=
  natToLEBytes version 1 ++ natToLEBytes uid 8 ++ natToLEBytes aid 8 ++ password

/-- The external collaborators of `GateKeeper`: the two key-retrieval
services (`GetPasswordKey` / `GetAuthTokenKey`, `none` modelling a null
result) and the two deterministic keyed signature primitives
(`ComputePasswordSignature(key, message, salt)` and
`ComputeSignature(key, message)`; the auth-token key is passed to the
latter without an availability check in the source, hence the `Option`
key argument). -/
structure CryptoCtx where
  passwordKey : Option (List Nat)
  computePasswordSignature : List Nat → List Nat → Nat → List Nat
  authTokenKey : Option (List Nat)
  computeSignature : Option (List Nat) → List Nat → List Nat

/-- The persisted password-file store: `ReadPasswordFile` result per
uid, `none` modelling an absent file / null buffer. -/
def Store : Type := Nat → Option (List Nat)

/-- `GateKeeper::CreatePasswordHandle`: fills the handle fields
(version := HANDLE_VERSION, salt, user_id, authenticator_id), builds
`to_sign` as the 17 metadata bytes followed by the password, fetches
the password key (failing when it is null or empty), and signs with
the salt as key-diversification parameter. -/
def CreatePasswordHandle (ctx : CryptoCtx) (salt uid aid : Nat)
    (password : List Nat) : Option password_handle_t :=
  match ctx.passwordKey with
  | none => none
  | some key =>
    if key.length = 0 then none
    else
      some { version := HANDLE_VERSION
             user_id := uid
             authenticator_id := aid
             salt := salt
             signature := ctx.computePasswordSignature key
               (signedRegion HANDLE_VERSION uid aid password) salt }

/-- `GateKeeper::DoVerify`: fails on a null password buffer, recreates
a handle from the expected handle's salt, user_id and authenticator_id
with the presented password, and `memcmp`s the recreated handle's
bytes against the expected handle's bytes (the whole
`sizeof(password_handle_t)` struct, not just the signature). -/
def DoVerify (ctx : CryptoCtx) (expected_handle : password_handle_t)
    (password : Option (List Nat)) : Bool :=
  match password with
  | none => false
  | some pw =>
    match CreatePasswordHandle ctx expected_handle.salt expected_handle.user_id
        expected_handle.authenticator_id pw with
    | none => false
    | some provided_handle =>
      serializeHandle provided_handle == serializeHandle expected_handle

/-- `GateKeeper::ValidatePasswordFile`: reads the stored handle for the
uid, fails when it is absent or empty, and otherwise requires the
stored and provided buffers to have equal length and equal bytes. -/
def ValidatePasswordFile (store : Store) (uid : Nat)
    (provided_handle : List Nat) : Bool :=
  match store uid with
  | none => false
  | some stored_handle =>
    if stored_handle.length = 0 then false
    else stored_handle.length == provided_handle.length &&
      stored_handle == provided_handle

/-- Modelled from the spec: the `AuthToken` struct is declared in
`gatekeeper.h`, which is not under `src/`; per the spec it is
{ rootSecureId, auxiliarySecureId, timestamp : u32, hmac : 32 bytes }
with the hmac covering all preceding fields in declaration order. -/
structure AuthToken where
  root_secure_user_id : Nat
  auxiliary_secure_user_id : Nat
  timestamp : Nat
  hmac : List Nat
deriving DecidableEq, Repr

/-- Modelled from the spec: the `hash_len` bytes of the token preceding
the hmac field, in declaration order (root id, auxiliary id, u32
timestamp), as the message of `ComputeSignature`. -/
def authTokenSignedBytes (root aux ts : Nat) : List Nat :=
  natToLEBytes root 8 ++ natToLEBytes aux 8 ++ natToLEBytes ts 4

/-- `GateKeeper::MintAuthToken`: fills the token fields, fetches the
auth-token key (without checking its availability), and signs the
token bytes preceding the hmac field. It always produces a token. -/
def MintAuthToken (ctx : CryptoCtx) (timestamp uid aid : Nat) : AuthToken where
  root_secure_user_id := uid
  auxiliary_secure_user_id := aid
  timestamp := timestamp
  hmac := ctx.computeSignature ctx.authTokenKey (authTokenSignedBytes uid aid timestamp)

/-- The outcome a `VerifyResponse` records: `ERROR_INVALID` or a
verification token. -/
inductive VerifyResult where
  | error : VerifyResult
  | success : AuthToken → VerifyResult
deriving DecidableEq, Repr

/-- `GateKeeper::Verify`: fails on missing buffers, reinterprets the
handle buffer as a `password_handle_t`, rejects a version byte other
than `HANDLE_VERSION`, falls back to user_id and authenticator_id both
0 when the password-file cross-check fails (proceeding rather than
failing), and mints an auth token exactly when `DoVerify` succeeds. -/
def Verify (ctx : CryptoCtx) (store : Store) (timestamp uid : Nat)
    (password_handle provided_password : Option (List Nat)) : VerifyResult :=
  match provided_password, password_handle with
  | some pw, some handleBytes =>
    let h := readHandle handleBytes
    if h.version ≠ HANDLE_VERSION then .error
    else
      let ids : Nat × Nat :=
        if ValidatePasswordFile store uid handleBytes then (h.user_id, h.authenticator_id)
        else (0, 0)
      if DoVerify ctx h (some pw) then
        .success (MintAuthToken ctx timestamp ids.1 ids.2)
      else .error
  | _, _ => .error

/-- The outcome an `EnrollResponse` records: `ERROR_INVALID` or the
enrolled handle (whose response buffer is `serializeHandle` of it). -/
inductive EnrollResult where
  | error : EnrollResult
  | success : password_handle_t → EnrollResult
deriving DecidableEq, Repr

/-- The user-id selection phase of `GateKeeper::Enroll` (lines 49-72):
with no prior handle the fresh random draw is used; with a prior
handle, the store cross-check and then the old-password `DoVerify`
must succeed, and the prior handle's `user_id` is carried forward;
`none` models reaching `response->error = ERROR_INVALID`. -/
def enrollUserId (ctx : CryptoCtx) (store : Store) (uid rand_uid : Nat)
    (enrolled_password password_handle : Option (List Nat)) : Option Nat :=
  match password_handle with
  | none => some rand_uid
  | some handleBytes =>
    if ValidatePasswordFile store uid handleBytes then
      if DoVerify ctx (readHandle handleBytes) enrolled_password then
        some (readHandle handleBytes).user_id
      else none
    else none

/-- `GateKeeper::Enroll`. The three `GetRandom` draws (the fresh
user_id used only when no prior handle is supplied, the fresh salt and
the fresh authenticator_id) are explicit arguments. Fails on a null
provided (new) password; selects the user id through `enrollUserId`;
builds the new handle with the new password and writes it to the store
keyed by uid only after everything succeeded. Returns the response
outcome together with the store as left after the call. -/
def Enroll (ctx : CryptoCtx) (store : Store) (rand_uid rand_salt rand_aid : Nat)
    (uid : Nat) (provided_password enrolled_password password_handle : Option (List Nat)) :
    EnrollResult × Store :=
  match provided_password with
  | none => (.error, store)
  | some newpw =>
    match enrollUserId ctx store uid rand_uid enrolled_password password_handle with
    | none => (.error, store)
    | some user_id =>
      match CreatePasswordHandle ctx rand_salt user_id rand_aid newpw with
      | none => (.error, store)
      | some h =>
        (.success h, fun u => if u = uid then some (serializeHandle h) else store u)

/-- Flip bit `i` of a natural. -/
def flipBit (n i : Nat) : Nat := n ^^^ (2 ^ i)

/-- Flip bit `i` of byte `j` of a byte list. -/
def flipListBit (l : List Nat) (j i : Nat) : List Nat :=
  l.set j (flipBit (l.getD j 0) i)

/-- The idealization of the external keyed signature primitive the
spec's tamper-sensitivity and soundness properties presuppose: for the
key in use, distinct (message, salt) pairs give distinct signatures
(a collision-free deterministic MAC). -/
def PairInjectiveSig (ctx : CryptoCtx) (key : List Nat) : Prop :=
  ∀ m1 s1 m2 s2, ctx.computePasswordSignature key m1 s1 =
    ctx.computePasswordSignature key m2 s2 → m1 = m2 ∧ s1 = s2

/-- A concrete collaborator environment whose password-signature
primitive returns a fixed 32-zero-byte signature (layout-faithful
output size), for evaluating the flows on concrete inputs. -/
def constCtx : CryptoCtx where
  passwordKey := some [1]
  computePasswordSignature := fun _ _ _ => List.replicate 32 0
  authTokenKey := some [1]
  computeSignature := fun _ _ => List.replicate 32 0

/-- A concrete collaborator environment whose password-signature
primitive is injective in (message, salt), for evaluating the
tamper-sensitivity and soundness statements on concrete inputs. -/
def injCtx : CryptoCtx where
  passwordKey := some [1]
  computePasswordSignature := fun _ m s => s :: m
  authTokenKey := some [1]
  computeSignature := fun _ _ => []

/-- A concrete environment with the auth-token key service
unavailable. -/
def noTokenKeyCtx : CryptoCtx where
  passwordKey := some [1]
  computePasswordSignature := fun _ _ _ => List.replicate 32 0
  authTokenKey := none
  computeSignature := fun _ _ => []

/-- A store with no password file for any uid. -/
def emptyStore : Store := fun _ => none

/-- An all-zero 57-byte handle buffer: the buffer `CreatePasswordHandle`
builds in `constCtx` from salt 0, ids 0 and an empty password. -/
def zeroHandleBytes : List Nat := List.replicate 57 0

/-- A 58-byte buffer whose first 57 bytes are a well-formed handle:
one byte longer than `sizeof(password_handle_t)`. -/
def longHandleBytes : List Nat := List.replicate 57 0 ++ [7]

/-- A store persisting `longHandleBytes` for every uid. -/
def longStore : Store := fun _ => some longHandleBytes

/-- A store persisting `zeroHandleBytes` for every uid. -/
def fullStore : Store := fun _ => some zeroHandleBytes

/-- A 57-byte buffer whose version byte is 1 rather than
`HANDLE_VERSION`. -/
def badVersionBytes : List Nat := 1 :: List.replicate 56 0

/-- The handle `CreatePasswordHandle` builds in `injCtx` from salt 0,
user id 1, authenticator id 2 and password `[5]`. -/
def injH : password_handle_t where
  version := HANDLE_VERSION
  user_id := 1
  authenticator_id := 2
  salt := 0
  signature := 0 :: signedRegion HANDLE_VERSION 1 2 [5]

/-- The handle `Enroll` builds in `constCtx` from random draws
salt 12 and authenticator id 13, carrying user id 0 forward. -/
def c4h : password_handle_t where
  version := HANDLE_VERSION
  user_id := 0
  authenticator_id := 13
  salt := 12
  signature := List.replicate 32 0

theorem natToLEBytes_length (n w : Nat) : (natToLEBytes n w).length = w := by
  induction w generalizing n with
  | zero => rfl
  | succ w ih => simp [natToLEBytes, ih]

theorem natToLEBytes_one (n : Nat) : natToLEBytes n 1 = [n % 256] := rfl

theorem natToLEBytes_inj {w m n : Nat} (hm : m < 2 ^ (8 * w)) (hn : n < 2 ^ (8 * w))
    (h : natToLEBytes m w = natToLEBytes n w) : m = n := by
  induction w generalizing m n with
  | zero =>
    simp only [Nat.mul_zero, pow_zero, Nat.lt_one_iff] at hm hn
    omega
  | succ w ih =>
    simp only [natToLEBytes, List.cons.injEq] at h
    have hb : 2 ^ (8 * (w + 1)) = 2 ^ (8 * w) * 256 := by
      rw [Nat.mul_succ, pow_add]
      norm_num
    have hm2 : m / 256 < 2 ^ (8 * w) := Nat.div_lt_of_lt_mul (by omega)
    have hn2 : n / 256 < 2 ^ (8 * w) := Nat.div_lt_of_lt_mul (by omega)
    have := ih hm2 hn2 h.2
    omega

theorem flipBit_ne (n i : Nat) : flipBit n i ≠ n := by
  intro h
  have h2 := congrArg (fun m => Nat.testBit m i) h
  simp only [flipBit, Nat.testBit_xor, Nat.testBit_two_pow_self] at h2
  cases hb : Nat.testBit n i <;> simp [hb] at h2

theorem flipBit_lt {n k : Nat} (hn : n < 2 ^ k) {i : Nat} (hi : i < k) :
    flipBit n i < 2 ^ k :=
  Nat.xor_lt_two_pow hn (Nat.pow_lt_pow_right one_lt_two hi)

theorem flipListBit_ne {l : List Nat} {j : Nat} (hj : j < l.length) (i : Nat) :
    flipListBit l j i ≠ l := by
  intro h
  have h2 := congrArg (fun t => t.getD j 0) h
  simp only [flipListBit] at h2
  rw [List.getD_eq_getElem _ _ (by simpa using hj), List.getElem_set_self,
    List.getD_eq_getElem _ _ hj] at h2
  exact flipBit_ne _ i h2

theorem serializeHandle_inj {h1 h2 : password_handle_t}
    (h : serializeHandle h1 = serializeHandle h2) :
    natToLEBytes h1.version 1 = natToLEBytes h2.version 1 ∧
    natToLEBytes h1.user_id 8 = natToLEBytes h2.user_id 8 ∧
    natToLEBytes h1.authenticator_id 8 = natToLEBytes h2.authenticator_id 8 ∧
    natToLEBytes h1.salt 8 = natToLEBytes h2.salt 8 ∧
    h1.signature = h2.signature := by
  unfold serializeHandle at h
  simp only [List.append_assoc] at h
  obtain ⟨e1, h⟩ := List.append_inj h (by simp [natToLEBytes_length])
  obtain ⟨e2, h⟩ := List.append_inj h (by simp [natToLEBytes_length])
  obtain ⟨e3, h⟩ := List.append_inj h (by simp [natToLEBytes_length])
  obtain ⟨e4, e5⟩ := List.append_inj h (by simp [natToLEBytes_length])
  exact ⟨e1, e2, e3, e4, e5⟩

theorem signedRegion_inj {v1 v2 u1 u2 a1 a2 : Nat} {p1 p2 : List Nat}
    (h : signedRegion v1 u1 a1 p1 = signedRegion v2 u2 a2 p2) :
    natToLEBytes v1 1 = natToLEBytes v2 1 ∧
    natToLEBytes u1 8 = natToLEBytes u2 8 ∧
    natToLEBytes a1 8 = natToLEBytes a2 8 ∧ p1 = p2 := by
  unfold signedRegion at h
  simp only [List.append_assoc] at h
  obtain ⟨e1, h⟩ := List.append_inj h (by simp [natToLEBytes_length])
  obtain ⟨e2, h⟩ := List.append_inj h (by simp [natToLEBytes_length])
  obtain ⟨e3, e4⟩ := List.append_inj h (by simp [natToLEBytes_length])
  exact ⟨e1, e2, e3, e4⟩

theorem CreatePasswordHandle_eq {ctx : CryptoCtx} {key : List Nat}
    (hkey : ctx.passwordKey = some key) (hlen : key.length ≠ 0)
    (salt uid aid : Nat) (pw : List Nat) :
    CreatePasswordHandle ctx salt uid aid pw =
      some { version := HANDLE_VERSION
             user_id := uid
             authenticator_id := aid
             salt := salt
             signature := ctx.computePasswordSignature key
               (signedRegion HANDLE_VERSION uid aid pw) salt } := by
  simp [CreatePasswordHandle, hkey, hlen]

theorem CreatePasswordHandle_fields {ctx : CryptoCtx} {salt uid aid : Nat}
    {pw : List Nat} {h : password_handle_t}
    (hh : CreatePasswordHandle ctx salt uid aid pw = some h) :
    h.version = HANDLE_VERSION ∧ h.user_id = uid ∧
    h.authenticator_id = aid ∧ h.salt = salt := by
  unfold CreatePasswordHandle at hh
  cases hctx : ctx.passwordKey with
  | none => rw [hctx] at hh; exact absurd hh (by simp)
  | some key =>
    rw [hctx] at hh
    by_cases hk : key.length = 0
    · simp [hk] at hh
    · simp only [hk, if_false] at hh
      cases hh
      exact ⟨rfl, rfl, rfl, rfl⟩

theorem DoVerify_some {ctx : CryptoCtx} {key : List Nat}
    (hkey : ctx.passwordKey = some key) (hlen : key.length ≠ 0)
    (expected : password_handle_t) (pw : List Nat) :
    DoVerify ctx expected (some pw) =
      (serializeHandle
        { version := HANDLE_VERSION
          user_id := expected.user_id
          authenticator_id := expected.authenticator_id
          salt := expected.salt
          signature := ctx.computePasswordSignature key
            (signedRegion HANDLE_VERSION expected.user_id expected.authenticator_id pw)
            expected.salt } == serializeHandle expected) := by
  unfold DoVerify
  simp only [CreatePasswordHandle_eq hkey hlen]

theorem injCtx_pairInjective : PairInjectiveSig injCtx [1] := by
  intro m1 s1 m2 s2 h
  injection h with h1 h2
  exact ⟨h2, h1⟩

/-- Claim C3: a handle produced by `CreatePasswordHandle` verifies
under `DoVerify` with the enrolling password (the signature primitive
being a deterministic function), and verification with any other
password fails (`InvalidCredential`), given the collision-free
idealization of the keyed signature. -/
theorem C3_verification_soundness {ctx : CryptoCtx} {key : List Nat}
    (hkey : ctx.passwordKey = some key) (hlen : key.length ≠ 0)
    (hinj : PairInjectiveSig ctx key) (salt uid aid : Nat) (pw : List Nat)
    {h : password_handle_t} (hh : CreatePasswordHandle ctx salt uid aid pw = some h)
    (pw2 : List Nat) (hne : pw2 ≠ pw) :
    DoVerify ctx h (some pw) = true ∧ DoVerify ctx h (some pw2) = false := by
  rw [CreatePasswordHandle_eq hkey hlen] at hh
  injection hh with hh2
  subst hh2
  constructor
  · rw [DoVerify_some hkey hlen]
    simp
  · rw [DoVerify_some hkey hlen, beq_eq_false_iff_ne]
    intro heq
    obtain ⟨-, -, -, -, e5⟩ := serializeHandle_inj heq
    obtain ⟨hm, -⟩ := hinj _ _ _ _ e5
    obtain ⟨-, -, -, hpw⟩ := signedRegion_inj hm
    exact hne hpw

theorem C3_verification_soundness_witness :
    DoVerify injCtx injH (some [5]) = true ∧ DoVerify injCtx injH (some [6]) = false :=
  C3_verification_soundness rfl (by decide) injCtx_pairInjective 0 1 2 [5] rfl [6] (by decide)

/-- Claim C2: flipping any single bit of a valid handle's signature,
version, secureIdentity (`user_id`) or authenticatorId field makes
`DoVerify` with the original password return false, given the
collision-free idealization of the keyed signature. -/
theorem C2_tamper_sensitivity {ctx : CryptoCtx} {key : List Nat}
    (hkey : ctx.passwordKey = some key) (hlen : key.length ≠ 0)
    (hinj : PairInjectiveSig ctx key) (salt uid aid : Nat) (pw : List Nat)
    (huid : uid < 2 ^ 64) (haid : aid < 2 ^ 64) {h : password_handle_t}
    (hh : CreatePasswordHandle ctx salt uid aid pw = some h)
    (j i1 i2 i3 i4 : Nat) (hj : j < h.signature.length)
    (hi1 : i1 < 8) (hi2 : i2 < 8) (hi3 : i3 < 64) (hi4 : i4 < 64) :
    DoVerify ctx { h with signature := flipListBit h.signature j i1 } (some pw) = false ∧
    DoVerify ctx { h with version := flipBit h.version i2 } (some pw) = false ∧
    DoVerify ctx { h with user_id := flipBit h.user_id i3 } (some pw) = false ∧
    DoVerify ctx { h with authenticator_id := flipBit h.authenticator_id i4 } (some pw)
      = false := by
  rw [CreatePasswordHandle_eq hkey hlen] at hh
  injection hh with hh2
  subst hh2
  refine ⟨?_, ?_, ?_, ?_⟩
  · rw [DoVerify_some hkey hlen, beq_eq_false_iff_ne]
    intro heq
    obtain ⟨-, -, -, -, e5⟩ := serializeHandle_inj heq
    exact flipListBit_ne hj i1 e5.symm
  · rw [DoVerify_some hkey hlen, beq_eq_false_iff_ne]
    intro heq
    obtain ⟨e1, -, -, -, -⟩ := serializeHandle_inj heq
    rw [natToLEBytes_one, natToLEBytes_one] at e1
    have e2 : HANDLE_VERSION % 256 = flipBit HANDLE_VERSION i2 % 256 := by
      injection e1
    have hlt : (2 : Nat) ^ i2 < 256 := by
      calc (2 : Nat) ^ i2 < 2 ^ 8 := Nat.pow_lt_pow_right one_lt_two hi2
        _ = 256 := by norm_num
    simp only [HANDLE_VERSION, flipBit, Nat.zero_xor, Nat.zero_mod] at e2
    rw [Nat.mod_eq_of_lt hlt] at e2
    have hpos : 0 < (2 : Nat) ^ i2 := pow_pos (by norm_num) i2
    omega
  · rw [DoVerify_some hkey hlen, beq_eq_false_iff_ne]
    intro heq
    obtain ⟨-, -, -, -, e5⟩ := serializeHandle_inj heq
    obtain ⟨hm, -⟩ := hinj _ _ _ _ e5
    obtain ⟨-, eu, -, -⟩ := signedRegion_inj hm
    exact flipBit_ne uid i3 (natToLEBytes_inj (flipBit_lt huid hi3) huid eu)
  · rw [DoVerify_some hkey hlen, beq_eq_false_iff_ne]
    intro heq
    obtain ⟨-, -, -, -, e5⟩ := serializeHandle_inj heq
    obtain ⟨hm, -⟩ := hinj _ _ _ _ e5
    obtain ⟨-, -, ea, -⟩ := signedRegion_inj hm
    exact flipBit_ne aid i4 (natToLEBytes_inj (flipBit_lt haid hi4) haid ea)

theorem C2_tamper_sensitivity_witness :
    DoVerify injCtx { injH with signature := flipListBit injH.signature 0 0 } (some [5])
      = false ∧
    DoVerify injCtx { injH with version := flipBit injH.version 0 } (some [5]) = false ∧
    DoVerify injCtx { injH with user_id := flipBit injH.user_id 0 } (some [5]) = false ∧
    DoVerify injCtx { injH with authenticator_id := flipBit injH.authenticator_id 0 }
      (some [5]) = false :=
  C2_tamper_sensitivity rfl (by decide) injCtx_pairInjective 0 1 2 [5]
    (by decide) (by decide) rfl 0 0 0 0 0 (by decide) (by decide) (by decide)
    (by decide) (by decide)

/-- Claim C8: the byte string signed by `CreatePasswordHandle` is
exactly version byte, then user_id bytes, then authenticator_id bytes,
then the password bytes, in that order; the salt enters only as the
key-diversification argument of the signing call, and the signature is
its output, neither being part of the message. -/
theorem C8_signed_region {ctx : CryptoCtx} {key : List Nat}
    (hkey : ctx.passwordKey = some key) (hlen : key.length ≠ 0)
    (salt uid aid : Nat) (pw : List Nat) {h : password_handle_t}
    (hh : CreatePasswordHandle ctx salt uid aid pw = some h) :
    h.signature = ctx.computePasswordSignature key
      (natToLEBytes HANDLE_VERSION 1 ++ natToLEBytes uid 8 ++
        natToLEBytes aid 8 ++ pw) salt := by
  rw [CreatePasswordHandle_eq hkey hlen] at hh
  injection hh with hh2
  subst hh2
  rfl

theorem C8_signed_region_witness :
    injH.signature = injCtx.computePasswordSignature [1]
      (natToLEBytes HANDLE_VERSION 1 ++ natToLEBytes 1 8 ++ natToLEBytes 2 8 ++ [5]) 0 :=
  C8_signed_region rfl (by decide) 0 1 2 [5] rfl

/-- Claim C9: `DoVerify` compares the whole recomputed handle's bytes
against the presented handle's bytes, not just the signature field;
consequently flipping a single bit in the salt field of a valid handle
also defeats verification with the correct password (given the
collision-free idealization of the keyed signature, which separates
distinct diversification salts). -/
theorem C9_full_struct_compare {ctx : CryptoCtx} {key : List Nat}
    (hkey : ctx.passwordKey = some key) (hlen : key.length ≠ 0)
    (hinj : PairInjectiveSig ctx key) (salt uid aid : Nat) (pw : List Nat)
    (hsalt : salt < 2 ^ 64) {h : password_handle_t}
    (hh : CreatePasswordHandle ctx salt uid aid pw = some h)
    (i : Nat) (hi : i < 64) (expected : password_handle_t) (pw2 : List Nat)
    {p : password_handle_t}
    (hp : CreatePasswordHandle ctx expected.salt expected.user_id
      expected.authenticator_id pw2 = some p) :
    (DoVerify ctx expected (some pw2) = true ↔
      serializeHandle p = serializeHandle expected) ∧
    DoVerify ctx { h with salt := flipBit h.salt i } (some pw) = false := by
  rw [CreatePasswordHandle_eq hkey hlen] at hh
  injection hh with hh2
  subst hh2
  constructor
  · unfold DoVerify
    simp only [hp]
    exact beq_iff_eq
  · rw [DoVerify_some hkey hlen, beq_eq_false_iff_ne]
    intro heq
    obtain ⟨-, -, -, -, e5⟩ := serializeHandle_inj heq
    obtain ⟨-, hs⟩ := hinj _ _ _ _ e5
    exact flipBit_ne salt i hs

theorem C9_full_struct_compare_witness :
    (DoVerify injCtx injH (some [5]) = true ↔
      serializeHandle injH = serializeHandle injH) ∧
    DoVerify injCtx { injH with salt := flipBit injH.salt 0 } (some [5]) = false :=
  C9_full_struct_compare rfl (by decide) injCtx_pairInjective 0 1 2 [5]
    (by decide) rfl 0 (by decide) injH [5] rfl

/-- Claim C1: on a structurally accepted handle whose store cross-check
fails, `Verify` still decides by signature verification (`DoVerify`),
and a success mints a token whose root and auxiliary secure ids are
both the sentinel 0, never the handle's own identity fields. -/
theorem C1_sentinel_identity (ctx : CryptoCtx) (store : Store) (ts uid : Nat)
    (pw hb : List Nat) (hsize : handleSize ≤ hb.length)
    (hver : (readHandle hb).version = HANDLE_VERSION)
    (hval : ValidatePasswordFile store uid hb = false) (b : Bool)
    (hdv : DoVerify ctx (readHandle hb) (some pw) = b) :
    Verify ctx store ts uid (some hb) (some pw) =
      cond b (.success (MintAuthToken ctx ts 0 0)) .error ∧
    (MintAuthToken ctx ts 0 0).root_secure_user_id = 0 ∧
    (MintAuthToken ctx ts 0 0).auxiliary_secure_user_id = 0 := by
  refine ⟨?_, rfl, rfl⟩
  cases b with
  | false => simp [Verify, hver, hval, hdv]
  | true => simp [Verify, hver, hval, hdv]

theorem C1_sentinel_identity_witness :
    Verify constCtx emptyStore 0 0 (some zeroHandleBytes) (some []) =
      cond true (.success (MintAuthToken constCtx 0 0 0)) .error ∧
    (MintAuthToken constCtx 0 0 0).root_secure_user_id = 0 ∧
    (MintAuthToken constCtx 0 0 0).auxiliary_secure_user_id = 0 :=
  C1_sentinel_identity constCtx emptyStore 0 0 [] zeroHandleBytes (by decide)
    rfl rfl true rfl

/-- Claim C4 (identity continuity): a successful Enroll gives the new
handle the fresh random salt and fresh random authenticator id in
every branch, and its user id is the prior handle's user id when a
prior handle was supplied (its cross-check and old-password
verification having succeeded), or the fresh random draw when none
was. -/
theorem C4_identity_continuity (ctx : CryptoCtx) (store : Store)
    (r_uid r_salt r_aid uid : Nat) (newpw : List Nat) (oldpw ph : Option (List Nat))
    {h : password_handle_t}
    (he : (Enroll ctx store r_uid r_salt r_aid uid (some newpw) oldpw ph).1 =
      .success h) :
    h.salt = r_salt ∧ h.authenticator_id = r_aid ∧
    h.user_id = ph.elim r_uid (fun bs => (readHandle bs).user_id) := by
  simp only [Enroll] at he
  cases hu : enrollUserId ctx store uid r_uid oldpw ph with
  | none => simp [hu] at he
  | some u =>
    simp only [hu] at he
    cases hc : CreatePasswordHandle ctx r_salt u r_aid newpw with
    | none => simp [hc] at he
    | some h0 =>
      simp only [hc] at he
      obtain rfl : h0 = h := by simpa using he
      obtain ⟨-, hu2, ha, hs⟩ := CreatePasswordHandle_fields hc
      refine ⟨hs, ha, ?_⟩
      rw [hu2]
      cases ph with
      | none =>
        simp only [enrollUserId, Option.some.injEq] at hu
        simp [← hu]
      | some bs =>
        simp only [enrollUserId] at hu
        by_cases hv : ValidatePasswordFile store uid bs = true
        · rw [if_pos hv] at hu
          by_cases hd : DoVerify ctx (readHandle bs) oldpw = true
          · rw [if_pos hd] at hu
            injection hu with hu3
            simp [← hu3]
          · rw [if_neg hd] at hu; simp at hu
        · rw [if_neg hv] at hu; simp at hu

theorem C4_identity_continuity_witness :
    c4h.salt = 12 ∧ c4h.authenticator_id = 13 ∧
    c4h.user_id = (some zeroHandleBytes).elim 11 (fun bs => (readHandle bs).user_id) :=
  C4_identity_continuity constCtx fullStore 11 12 13 0 [3] (some [])
    (some zeroHandleBytes) rfl

/-- Claim C5: a failing Enroll leaves the persisted store untouched:
`WritePasswordFile` runs only after the cross-check, the old-password
verification and the signing step have all succeeded. -/
theorem C5_no_partial_write (ctx : CryptoCtx) (store : Store) (r1 r2 r3 uid : Nat)
    (pp ep ph : Option (List Nat))
    (he : (Enroll ctx store r1 r2 r3 uid pp ep ph).1 = .error) :
    (Enroll ctx store r1 r2 r3 uid pp ep ph).2 = store := by
  cases pp with
  | none => rfl
  | some newpw =>
    simp only [Enroll] at he ⊢
    cases hu : enrollUserId ctx store uid r1 ep ph with
    | none => simp [hu]
    | some u =>
      cases hc : CreatePasswordHandle ctx r2 u r3 newpw with
      | none => simp [hu, hc]
      | some h0 => simp [hu, hc] at he

theorem C5_no_partial_write_witness :
    (Enroll constCtx emptyStore 1 2 3 0 none none none).2 = emptyStore :=
  C5_no_partial_write constCtx emptyStore 1 2 3 0 none none none rfl

/-- Claim C6 counterexample: a 58-byte buffer (one byte longer than
`sizeof(password_handle_t)`) whose version byte is current is not
rejected as malformed: `Verify` never checks the buffer length and
here returns a success token. -/
theorem C6_counterexample :
    longHandleBytes.length ≠ handleSize ∧
    Verify constCtx longStore 0 0 (some longHandleBytes) (some []) =
      .success (MintAuthToken constCtx 0 0 0) := by
  refine ⟨by decide, ?_⟩
  rfl

/-- Claim C6 as amended: the structural gate of `Verify` consists of
the null-buffer checks and the version-byte check only; a version byte
other than `HANDLE_VERSION`, or a missing buffer, fails with the error
result. No length comparison against the codec's handle size is
performed. -/
theorem C6_structural_gate (ctx : CryptoCtx) (store : Store) (ts uid : Nat)
    (pw hb : List Nat) (hver : (readHandle hb).version ≠ HANDLE_VERSION) :
    Verify ctx store ts uid (some hb) (some pw) = .error ∧
    Verify ctx store ts uid none (some pw) = .error ∧
    Verify ctx store ts uid (some hb) none = .error := by
  refine ⟨?_, rfl, rfl⟩
  simp [Verify, hver]

theorem C6_structural_gate_witness :
    Verify constCtx emptyStore 0 0 (some badVersionBytes) (some []) = .error ∧
    Verify constCtx emptyStore 0 0 none (some []) = .error ∧
    Verify constCtx emptyStore 0 0 (some badVersionBytes) none = .error :=
  C6_structural_gate constCtx emptyStore 0 0 [] badVersionBytes (by decide)

/-- Claim C7 counterexample: with the auth-token key service
unavailable, `MintAuthToken` does not fail (the code never checks the
key) and `Verify` still returns a success response once the password
signature matches. -/
theorem C7_counterexample :
    noTokenKeyCtx.authTokenKey = none ∧
    Verify noTokenKeyCtx emptyStore 0 0 (some zeroHandleBytes) (some []) =
      .success (MintAuthToken noTokenKeyCtx 0 0 0) :=
  ⟨rfl, rfl⟩

/-- Claim C7 as amended: `MintAuthToken` never fails — the auth-token
key is passed to the signing primitive without an availability check —
and a `Verify` call whose signature check succeeds returns a success
response even when the auth-token key service is unavailable. -/
theorem C7_verify_succeeds_without_token_key (ctx : CryptoCtx) (store : Store)
    (ts uid : Nat) (pw hb : List Nat) (hkey : ctx.authTokenKey = none)
    (hver : (readHandle hb).version = HANDLE_VERSION)
    (hdv : DoVerify ctx (readHandle hb) (some pw) = true) :
    Verify ctx store ts uid (some hb) (some pw) ≠ .error := by
  cases hvb : ValidatePasswordFile store uid hb <;> simp [Verify, hver, hdv, hvb]

theorem C7_verify_succeeds_without_token_key_witness :
    Verify noTokenKeyCtx emptyStore 0 0 (some zeroHandleBytes) (some []) ≠ .error :=
  C7_verify_succeeds_without_token_key noTokenKeyCtx emptyStore 0 0 []
    zeroHandleBytes rfl rfl rfl

/-- Claim C10: Enroll with a prior handle whose version byte is not
`HANDLE_VERSION` always fails: there is no explicit version check on
the enrollment path, but the handle `DoVerify` recomputes always
carries the current version byte, so the full-struct comparison
rejects the prior handle whatever the passwords and store contents. -/
theorem C10_enroll_rejects_stale_version (ctx : CryptoCtx) (store : Store)
    (r1 r2 r3 uid : Nat) (pp ep : Option (List Nat)) (phBytes : List Nat)
    (hsize : handleSize ≤ phBytes.length)
    (hbyte : (readHandle phBytes).version < 256)
    (hver : (readHandle phBytes).version ≠ HANDLE_VERSION) :
    (Enroll ctx store r1 r2 r3 uid pp ep (some phBytes)).1 = .error := by
  have hdv : ∀ p : Option (List Nat), DoVerify ctx (readHandle phBytes) p = false := by
    intro p
    cases p with
    | none => rfl
    | some pw =>
      simp only [DoVerify]
      cases hc : CreatePasswordHandle ctx (readHandle phBytes).salt
          (readHandle phBytes).user_id (readHandle phBytes).authenticator_id pw with
      | none => simp [hc]
      | some p2 =>
        simp only [hc]
        rw [beq_eq_false_iff_ne]
        intro heq
        obtain ⟨e1, -, -, -, -⟩ := serializeHandle_inj heq
        have hv0 := (CreatePasswordHandle_fields hc).1
        rw [natToLEBytes_one, natToLEBytes_one, hv0] at e1
        have e2 : HANDLE_VERSION % 256 = (readHandle phBytes).version % 256 := by
          injection e1
        rw [Nat.mod_eq_of_lt hbyte] at e2
        exact hver (by simpa [HANDLE_VERSION] using e2.symm)
  cases pp with
  | none => rfl
  | some newpw =>
    simp only [Enroll]
    have hu : enrollUserId ctx store uid r1 ep (some phBytes) = none := by
      simp [enrollUserId, hdv]
    simp [hu]

theorem C10_enroll_rejects_stale_version_witness :
    (Enroll constCtx emptyStore 0 0 0 0 (some []) (some [])
      (some badVersionBytes)).1 = .error :=
  C10_enroll_rejects_stale_version constCtx emptyStore 0 0 0 0 (some []) (some [])
    badVersionBytes (by decide) (by decide) (by decide)

end Gatekeeper
